import Mathlib

/-!
Verification of the KubeEdge Application / Agent / Center subsystem
(`cloud/pkg/dynamiccontroller/application` and the edge agent), shallowly
embedded in Lean 4.  Byte strings are `List Nat` (each entry a byte value),
Go `uint64` arithmetic is `Nat` with explicit `% 2^64`, Go `time.Time` is
`Option Nat` (`none` models the zero time), and the completion signal
(`ctx`/`cancel`) is a `Bool` field `done`.
-/

/-- Byte strings, one `Nat` per byte. -/
abbrev Bytes := List Nat

/-- Models Go `[]byte(s)` conversion of a string (codepoints; agrees with
UTF-8 on the ASCII inputs used throughout). -/
def strBytes (s : String) : Bytes := s.toList.map Char.toNat

/-! ### SHA-256 over `Nat`, as used by `Application.Identifier` -/

def w32 (x : Nat) : Nat := x % 4294967296

def rotr32 (n x : Nat) : Nat := w32 ((x >>> n) ||| (x <<< (32 - n)))

def bigSigma0 (x : Nat) : Nat := (rotr32 2 x) ^^^ (rotr32 13 x) ^^^ (rotr32 22 x)
def bigSigma1 (x : Nat) : Nat := (rotr32 6 x) ^^^ (rotr32 11 x) ^^^ (rotr32 25 x)
def smallSigma0 (x : Nat) : Nat := (rotr32 7 x) ^^^ (rotr32 18 x) ^^^ (x >>> 3)
def smallSigma1 (x : Nat) : Nat := (rotr32 17 x) ^^^ (rotr32 19 x) ^^^ (x >>> 10)
def chF (x y z : Nat) : Nat := (x &&& y) ^^^ ((x ^^^ 4294967295) &&& z)
def majF (x y z : Nat) : Nat := (x &&& y) ^^^ (x &&& z) ^^^ (y &&& z)

/-- The 64 SHA-256 round constants (decimal). -/
def shaK : List Nat :=
  [1116352408, 1899447441, 3049323471, 3921009573, 961987163, 1508970993,
   2453635748, 2870763221, 3624381080, 310598401, 607225278, 1426881987,
   1925078388, 2162078206, 2614888103, 3248222580, 3835390401, 4022224774,
   264347078, 604807628, 770255983, 1249150122, 1555081692, 1996064986,
   2554220882, 2821834349, 2952996808, 3210313671, 3336571891, 3584528711,
   113926993, 338241895, 666307205, 773529912, 1294757372, 1396182291,
   1695183700, 1986661051, 2177026350, 2456956037, 2730485921, 2820302411,
   3259730800, 3345764771, 3516065817, 3600352804, 4094571909, 275423344,
   430227734, 506948616, 659060556, 883997877, 958139571, 1322822218,
   1537002063, 1747873779, 1955562222, 2024104815, 2227730452, 2361852424,
   2428436474, 2756734187, 3204031479, 3329325298]

/-- The initial SHA-256 state words (decimal). -/
def shaH0 : List Nat :=
  [1779033703, 3144134277, 1013904242, 2773480762,
   1359893119, 2600822924, 528734635, 1541459225]

/-- Big-endian byte expansion, fixed width. -/
def beBytes : Nat → Nat → Bytes
  | 0, _ => []
  | n + 1, x => beBytes n (x / 256) ++ [x % 256]

/-- SHA-256 padding of a byte message. -/
def padMsg (msg : Bytes) : Bytes :=
  msg ++ [0x80] ++ List.replicate ((119 - msg.length % 64) % 64) 0 ++ beBytes 8 (8 * msg.length)

/-- Big-endian 32-bit words from bytes. -/
def toWords : Bytes → List Nat
  | b0 :: b1 :: b2 :: b3 :: rest => (((b0 * 256 + b1) * 256 + b2) * 256 + b3) :: toWords rest
  | _ => []

def scheduleStep (w : List Nat) : List Nat :=
  let i := w.length
  w ++ [w32 (smallSigma1 (w.getD (i - 2) 0) + w.getD (i - 7) 0 +
             smallSigma0 (w.getD (i - 15) 0) + w.getD (i - 16) 0)]

def schedule (w16 : List Nat) : List Nat :=
  (List.range 48).foldl (fun w _ => scheduleStep w) w16

def compressStep (st : List Nat) (kw : Nat × Nat) : List Nat :=
  match st with
  | [a, b, c, d, e, f, g, h] =>
    let t1 := w32 (h + bigSigma1 e + chF e f g + kw.1 + kw.2)
    let t2 := w32 (bigSigma0 a + majF a b c)
    [w32 (t1 + t2), a, b, c, w32 (d + t1), e, f, g]
  | other => other

def compressBlock (h : List Nat) (block : Bytes) : List Nat :=
  let st := ((shaK.zip (schedule (toWords block))).foldl compressStep h)
  (h.zip st).map (fun p => w32 (p.1 + p.2))

def sha256Blocks : Nat → List Nat → Bytes → List Nat
  | 0, h, _ => h
  | fuel + 1, h, msg =>
    if msg.length = 0 then h
    else sha256Blocks fuel (compressBlock h (msg.take 64)) (msg.drop 64)

/-- SHA-256 digest (32 bytes) of a byte message, mirroring `sha256.Sum256`. -/
def sha256Sum (msg : Bytes) : Bytes :=
  let p := padMsg msg
  (sha256Blocks (p.length / 64) shaH0 p).foldr (fun x acc => beBytes 4 x ++ acc) []

def hexDigit (n : Nat) : Char :=
  if n < 10 then Char.ofNat (48 + n) else Char.ofNat (87 + n)

/-- Lowercase hex rendering, mirroring Go `fmt.Sprintf("%x", digest)`. -/
def hexOfBytes (bs : Bytes) : String :=
  String.mk (bs.foldr (fun b acc => hexDigit (b / 16) :: hexDigit (b % 16) :: acc) [])

/-! ### Data model: `applicationStatus`, `applicationVerb`, `Application` -/

inductive applicationStatus where
  | PreApplying   -- application is waiting to be sent to cloud
  | InApplying    -- application is sending to cloud
  | InProcessing  -- application is in processing by cloud
  | Approved      -- application is approved by cloud
  | Rejected      -- application is rejected by cloud
  | Failed        -- failed to get application resp from cloud
  | Completed     -- application is completed and waiting to be recycled
deriving DecidableEq

inductive applicationVerb where
  | Get
  | List
  | Watch
  | Create
  | Delete
  | Update
  | UpdateStatus
  | Patch
deriving DecidableEq

/-- The byte string appended for the verb in `Identifier` (`[]byte(a.Verb)`). -/
def verbBytes : applicationVerb → Bytes
  | .Get => strBytes "get"
  | .List => strBytes "list"
  | .Watch => strBytes "watch"
  | .Create => strBytes "create"
  | .Delete => strBytes "delete"
  | .Update => strBytes "update"
  | .UpdateStatus => strBytes "updatestatus"
  | .Patch => strBytes "patch"

/-- Alias for `Option Nat` usable inside the `Application` namespace, where
the bare name `Option` would resolve to the `Application.Option` field. -/
abbrev TimeOpt := Option Nat

/-- `apierrors.StatusError` is external; only its presence matters here. -/
structure StatusError where
  errStatus : String
deriving DecidableEq

/-- The `Application` record.  The cancellable completion context
(`ctx`/`cancel`) is modelled by the `done` flag (`true` once the signal has
fired); `count` carries the Go `uint64` value; `timestamp` is `none` for the
Go zero `time.Time`.  The `Option` field is declared last so that the Lean
`Option` type stays referable in the earlier field types. -/
structure Application where
  ID : String
  Key : String
  Verb : applicationVerb
  Nodename : String
  Status : applicationStatus
  Reason : String
  ReqBody : Bytes
  RespBody : Bytes
  Subresource : String
  Error : StatusError
  Token : String
  done : Bool
  count : Nat
  timestamp : TimeOpt
  Option : Bytes
deriving DecidableEq

/-- The bare field concatenation hashed by `Identifier` (no separators). -/
def Application.identifierBytes (a : Application) : Bytes :=
  strBytes a.Nodename ++ strBytes a.Key ++ verbBytes a.Verb ++
    a.Option ++ a.ReqBody ++ strBytes a.Subresource ++ strBytes a.Token

/-- `Application.Identifier`: the memoized fingerprint — the stored `ID` when
non-empty, otherwise the hex SHA-256 of the bare field concatenation. -/
def Application.Identifier (a : Application) : String :=
  if a.ID ≠ "" then a.ID else hexOfBytes (sha256Sum a.identifierBytes)

/-- `Application.add`: reference-count increment (Go `uint64` `count++`). -/
def Application.add (a : Application) : Application :=
  { a with count := (a.count + 1) % 18446744073709551616 }

def Application.getCount (a : Application) : Nat := a.count

/-- `Application.Close`: no-op at count zero; otherwise stamps the closing
time, decrements the count, and flips Status to Completed exactly when the
decremented count is zero. -/
def Application.Close (a : Application) (now : Nat) : Application :=
  if a.count = 0 then a
  else
    let a' := { a with timestamp := some now, count := a.count - 1 }
    if a'.count = 0 then { a' with Status := .Completed } else a'

/-- `Application.LastCloseTime`: the stamped time when the count is zero and
the timestamp is non-zero, otherwise the zero time (`none`). -/
def Application.LastCloseTime (a : Application) : TimeOpt :=
  if a.count = 0 then a.timestamp else none

/-- `Application.Call`: fires the completion signal (cancels `ctx`). -/
def Application.Call (a : Application) : Application :=
  { a with done := true }

/-- `Application.Reset`: cancels the old context and installs a fresh one
(re-arming the completion signal), clears `Reason` and `RespBody`. -/
def Application.Reset (a : Application) : Application :=
  { a with done := false, Reason := "", RespBody := [] }

/-! ### Agent (edge side) -/

/-- `apirequest.RequestInfo`, restricted to the fields `Generate` reads. -/
structure RequestInfo where
  IsResourceRequest : Bool
  Subresource : String
deriving DecidableEq

/-- Modelled from the spec: the request `context.Context` consumed by
`Agent.Generate` and `newApplication`.  `metaserver.KeyFuncReq` is not under
src/, so the context directly carries its outcome (`key`, "derives the
resource key ... from the request context"); `requestInfo` models
`apirequest.RequestInfoFrom`; `token` models the string type assertion on
`ctx.Value(commontypes.AuthorizationKey)` (`none` for a non-string value). -/
structure Ctx where
  key : Except String String
  requestInfo : Option RequestInfo
  token : Option String

/-- The fresh `Application` literal built by `newApplication` before its
`add()` call (`count = 0`, zero-valued response fields, fresh context). -/
def mkApp (key : String) (verb : applicationVerb) (nodename subresource : String)
    (opt reqBody : Bytes) (token : String) : Application :=
  { ID := "", Key := key, Verb := verb, Nodename := nodename, Status := .PreApplying,
    Reason := "", Option := opt, ReqBody := reqBody, RespBody := [],
    Subresource := subresource, Error := ⟨""⟩, Token := token,
    done := false, count := 0, timestamp := none }

/-- `newApplication`: fails when the context carries no string token,
otherwise builds the fresh Application and takes the creator's reference
(`app.add()`).  `option`/`reqBody` arrive already serialized (`toBytes`). -/
def newApplication (ctx : Ctx) (key : String) (verb : applicationVerb)
    (nodename subresource : String) (opt reqBody : Bytes) :
    Except String Application :=
  match ctx.token with
  | none => .error "unsupported Token type"
  | some token => .ok (mkApp key verb nodename subresource opt reqBody token).add

/-- The Agent's live-Application table (`sync.Map`), as an association list. -/
abbrev AppTable := List (String × Application)

def lookupTable : AppTable → String → Option Application
  | [], _ => none
  | (k0, v) :: rest, k => if k0 = k then some v else lookupTable rest k

/-- Write-back of a mutated stored Application (pointer mutation in Go). -/
def updateTable (t : AppTable) (k : String) (v : Application) : AppTable :=
  t.map (fun kv => if kv.1 = k then (k, v) else kv)

structure Agent where
  Applications : AppTable
  nodeName : String

/-- `Agent.Generate`: derives key and request info from the context, builds
the Application, and `LoadOrStore`s it by fingerprint — an already-present
fingerprint yields the stored instance with its reference count bumped. -/
def Agent.Generate (a : Agent) (ctx : Ctx) (verb : applicationVerb)
    (opt reqBody : Bytes) : Except String Application × Agent :=
  match ctx.key with
  | .error e => (.error e, a)
  | .ok key =>
    match ctx.requestInfo with
    | none => (.error "no request info in context", a)
    | some info =>
      if !info.IsResourceRequest then (.error "no request info in context", a)
      else
        match newApplication ctx key verb a.nodeName info.Subresource opt reqBody with
        | .error e => (.error e, a)
        | .ok app =>
          match lookupTable a.Applications app.Identifier with
          | some stored =>
            (.ok stored.add,
             { a with Applications := updateTable a.Applications app.Identifier stored.add })
          | none =>
            (.ok app, { a with Applications := a.Applications ++ [(app.Identifier, app)] })

/-- The first phase of `Agent.Apply`: what the Status switch decides. -/
inductive ApplyAction where
  | send                        -- PreApplying: go doApply, then Wait
  | resetSend                   -- Completed: Reset, go doApply, then Wait
  | retError (e : StatusError)  -- Rejected: return stored structured error
  | retReason (r : String)      -- Failed: return errors.New(app.Reason)
  | retNil                      -- Approved: return nil
  | wait                        -- InApplying (and fallthrough): just Wait
deriving DecidableEq

/-- Whether the action triggers a send cycle (`go a.doApply(app)`). -/
def ApplyAction.sends : ApplyAction → Bool
  | .send | .resetSend => true
  | _ => false

/-- Whether the action resets the Application before sending. -/
def ApplyAction.resets : ApplyAction → Bool
  | .resetSend => true
  | _ => false

/-- Whether the action returns from `Apply` before reaching `app.Wait()`. -/
def ApplyAction.returnsImmediately : ApplyAction → Bool
  | .retError _ | .retReason _ | .retNil => true
  | _ => false

/-- The Status switch of `Agent.Apply` (`InProcessing` has no case and falls
through to `app.Wait()`). -/
def applyDispatch (app : Application) : ApplyAction :=
  match app.Status with
  | .PreApplying => .send
  | .Completed => .resetSend
  | .Rejected => .retError app.Error
  | .Failed => .retReason app.Reason
  | .Approved => .retNil
  | .InApplying => .wait
  | .InProcessing => .wait

/-- `Agent.Apply` up to its suspension point: unregistered Applications are
an error; otherwise the stored instance's Status decides the action. -/
def Agent.Apply (a : Agent) (app : Application) : Except String ApplyAction :=
  match lookupTable a.Applications app.Identifier with
  | none => .error "application has not been registered to agent"
  | some stored => .ok (applyDispatch stored)

/-- The error `Apply`'s tail can return after `app.Wait()` unblocks. -/
inductive ApplyErr where
  | statusErr (e : StatusError)  -- `&app.Error`
  | reasonErr (r : String)       -- `errors.New(app.Reason)`
deriving DecidableEq

/-- The re-inspection of Status after `app.Wait()` in `Agent.Apply`. -/
def applyAfterWait (app : Application) : Option ApplyErr :=
  if app.Status = .Rejected then some (.statusErr app.Error)
  else if app.Status ≠ .Approved then some (.reasonErr app.Reason)
  else none

/-- The outcome of the send-and-await-reply step of `doApply`:
`beehiveContext.SendSync` with its 10-second bound either errors (transport
failure or timeout), or yields a reply that `msgToApplication` decodes. -/
inductive ReplyOutcome where
  | sendErr (e : String)    -- SendSync returned an error (incl. timeout)
  | decodeErr (e : String)  -- reply did not decode into an Application
  | ok (ret : Application)  -- decoded reply

/-- `Agent.doApply`: marks the Application InApplying, sends, and merges the
outcome; the deferred `app.Call()` always fires the completion signal. -/
def Agent.doApply (app : Application) (r : ReplyOutcome) : Application :=
  let app' := { app with Status := .InApplying }
  let app'' :=
    match r with
    | .sendErr e =>
      { app' with Status := .Failed,
                  Reason := "failed to access cloud Application center: " ++ e }
    | .decodeErr e =>
      { app' with Status := .Failed,
                  Reason := "failed to get Application from resp msg: " ++ e }
    | .ok ret =>
      { app' with Status := ret.Status, Reason := ret.Reason,
                  Error := ret.Error, RespBody := ret.RespBody }
  app''.Call

/-- `time.Minute * 5` in nanoseconds. -/
def fiveMinutes : Int := 300000000000

/-- The per-entry deletion test of `Agent.GC`:
`!lastCloseTime.IsZero() && time.Since(lastCloseTime) >= time.Minute*5`. -/
def gcShouldDelete (app : Application) (now : Nat) : Bool :=
  match app.LastCloseTime with
  | none => false
  | some t => (now : Int) - (t : Int) ≥ fiveMinutes

/-- `Agent.GC`: sweeps the live table, deleting entries past the grace
window (`now` models `time.Now()` at sweep time). -/
def Agent.GC (a : Agent) (now : Nat) : Agent :=
  { a with Applications := a.Applications.filter (fun kv => !gcShouldDelete kv.2 now) }

/-! ### Center (cloud side) -/

/-- Splitting a character list on a separator character (the embedding of
`strings.Split` for the single-character separators the source uses). -/
def splitOnChar (sep : Char) : List Char → List (List Char)
  | [] => [[]]
  | c :: rest =>
    let r := splitOnChar sep rest
    if c = sep then [] :: r
    else
      match r with
      | [] => [[c]]
      | g :: gs => (c :: g) :: gs

/-- Rejoining split groups with the separator. -/
def joinChar (sep : Char) : List (List Char) → List Char
  | [] => []
  | [g] => g
  | g :: gs => g ++ sep :: joinChar sep gs

def splitStr (s : String) (sep : Char) : List String :=
  (splitOnChar sep s.toList).map String.mk

/-- `strings.SplitN(s, sep, 3)`: at most three pieces, the last keeping the
remaining separators. -/
def splitN3 (s : String) (sep : Char) : List String :=
  let parts := splitOnChar sep s.toList
  if parts.length ≤ 3 then parts.map String.mk
  else (parts.take 2).map String.mk ++ [String.mk (joinChar sep (parts.drop 2))]

def lowerChar (c : Char) : Char :=
  if 65 ≤ c.toNat ∧ c.toNat ≤ 90 then Char.ofNat (c.toNat + 32) else c

/-- ASCII lowering (the embedding of `strings.ToLower` for the ASCII scheme
tokens it is applied to). -/
def lowerStr (s : String) : String := String.mk (s.toList.map lowerChar)

structure GVR where
  group : String
  version : String
  resource : String
deriving DecidableEq

/-- Modelled from the spec: `metaserver.ParseKey` is not under src/; the spec
says `Key` "encodes (group, version, resource, namespace, name)", so the key
is modelled as slash-separated components in that order (missing components
come out empty). -/
def ParseKey (key : String) : GVR × String × String :=
  let parts := splitStr key '/'
  (⟨parts.getD 0 "", parts.getD 1 "", parts.getD 2 ""⟩, parts.getD 3 "", parts.getD 4 "")

/-- Modelled from the spec: the field-selector algebra used by
`Application.ToListener` (`fields.Selector`, `fields.AndSelectors` and
`fields.OneTermEqualSelector` are external); kept symbolic. -/
inductive FieldsSel where
  | fromStr (s : String)        -- the selector NewSelector builds from the request string
  | oneTerm (key value : String)
  | andSel (a b : FieldsSel)
deriving DecidableEq

/-- Modelled from the spec: `NewSelector` (not under src/) pairs the
requested label selector string with the requested field selector. -/
structure Selector where
  label : String
  field : FieldsSel
deriving DecidableEq

def NewSelector (label field : String) : Selector := ⟨label, .fromStr field⟩

/-- Modelled from the spec: `NewSelectorListener` (not under src/) packages
(node name, GVR, selector) for registration with the HandlerCenter. -/
structure SelectorListener where
  nodename : String
  gvr : GVR
  selector : Selector
deriving DecidableEq

/-- `metav1.ListOptions`, restricted to the fields `ToListener` reads. -/
structure ListOptions where
  labelSelector : String
  fieldSelector : String
deriving DecidableEq

/-- `Application.ToListener`: the listener for a watch Application — the
requested selector, with the field selector additionally constrained to the
key's namespace when that namespace is non-empty. -/
def Application.ToListener (a : Application) (opt : ListOptions) : SelectorListener :=
  let pk := ParseKey a.Key
  let namespace0 := pk.2.1
  let sel := NewSelector opt.labelSelector opt.fieldSelector
  let sel' :=
    if namespace0 ≠ "" then
      { sel with field := .andSel sel.field (.oneTerm "metadata.namespace" namespace0) }
    else sel
  ⟨a.Nodename, pk.1, sel'⟩

/-- `Center.generateNewConfig`: splits the raw token header on spaces (at
most three parts), requiring a `bearer` scheme and a non-empty token; on
success the returned config carries the bearer token (modelled by the token
string itself). -/
def generateNewConfig (raw : String) : Except String String :=
  let parts := splitN3 raw ' '
  if parts.length < 2 ∨ lowerStr (parts.getD 0 "") ≠ "bearer" ∨ (parts.getD 1 "").length = 0 then
    .error ("invalid request token format or length: " ++ toString parts.length)
  else
    .ok (parts.getD 1 "")

/-- The outcome of the `SelfSubjectAccessReview` the authorization backend
returns for this Application (an external oracle). -/
inductive AuthzResult where
  | allowed
  | denied (reason evaluationErr : String)
  | errored (e : String)  -- the review API call itself failed

/-- The denial message `authorizeApplication` builds. -/
def authzDeniedMsg (gvr : GVR) (reason evaluationErr : String) : String :=
  "resource " ++ gvr.group ++ "/" ++ gvr.version ++ ", Resource=" ++ gvr.resource ++
    " authorize failed." ++
    (if reason.length > 0 then "reason: " ++ reason ++ "." else "") ++
    (if evaluationErr.length > 0 then "evaluation error: " ++ evaluationErr ++ "." else "")

/-- `Center.authorizeApplication`: immediately nil when the
RequireAuthorization feature gate is off; otherwise builds a caller-token
auth client (token-format errors propagate) and runs a self-access review,
returning `none` exactly when the review allows the request. -/
def Center.authorizeApplication (gate : Bool) (sar : AuthzResult) (app : Application)
    (gvr : GVR) : Option String :=
  if !gate then none
  else
    match generateNewConfig app.Token with
    | .error e => some e
    | .ok _ =>
      match sar with
      | .errored e => some e
      | .allowed => none
      | .denied reason evaluationErr => some (authzDeniedMsg gvr reason evaluationErr)

/-- `Center.createKubeClient`: the shared default client when the feature
gate is off (`false` = not user-scoped), else a client bound to the caller's
bearer token (`true`), failing on a malformed token header. -/
def Center.createKubeClient (gate : Bool) (app : Application) : Except String Bool :=
  if !gate then .ok false
  else
    match generateNewConfig app.Token with
    | .error e => .error e
    | .ok _ => .ok true

/-- Observable side effects of `Center.ProcessApplication`, in order. -/
inductive CEvent where
  | authorize                          -- authorizeApplication invoked (watch path)
  | createClient (userScoped : Bool)   -- createKubeClient invoked (non-watch path)
  | addListener (l : SelectorListener) -- HandlerCenter.AddListener invoked
  | backendData (v : applicationVerb)  -- a CRUD data call on the resource backend
deriving DecidableEq

def CEvent.isAddListener : CEvent → Bool
  | .addListener _ => true
  | _ => false

/-- External oracles consumed by `Center.ProcessApplication`: option/body
decoding (`json.Unmarshal`), the backend CRUD outcome per verb, the
HandlerCenter `AddListener` outcome, the authorization review outcome and
the RequireAuthorization feature gate. -/
structure CenterEnv where
  gate : Bool
  sar : AuthzResult
  decodeListOptions : Bytes → Except String ListOptions
  decodeOther : applicationVerb → Bytes → Bytes → Except String Unit
  backend : applicationVerb → Except String (Option Bytes)
  addListenerErr : Option String

/-- Error wrapping applied to backend errors per verb (`list` wraps). -/
def wrapBackendErr (v : applicationVerb) (e : String) : String :=
  if v = .List then "get current list error: " ++ e else e

/-- `Center.ProcessApplication`: for `watch`, mandatory authorization then
listener registration (no backend data call); for every other verb, client
construction then the verb's decode and backend call.  Returns the
result (`.error` is surfaced as Rejected by `Process`) and the ordered
effect trace.  The entry also sets `app.Status = InProcessing`, which
`Process`/`Response` later overwrite with the final outcome. -/
def Center.ProcessApplication (env : CenterEnv) (app : Application) :
    Except String (Option Bytes) × List CEvent :=
  let pk := ParseKey app.Key
  if app.Verb = .Watch then
    match Center.authorizeApplication env.gate env.sar app pk.1 with
    | some e => (.error e, [.authorize])
    | none =>
      match env.decodeListOptions app.Option with
      | .error e => (.error e, [.authorize])
      | .ok opt =>
        match env.addListenerErr with
        | some e => (.error ("failed to add listener, " ++ e),
                     [.authorize, .addListener (app.ToListener opt)])
        | none => (.ok none, [.authorize, .addListener (app.ToListener opt)])
  else
    match Center.createKubeClient env.gate app with
    | .error e => (.error e, [])
    | .ok userScoped =>
      match env.decodeOther app.Verb app.Option app.ReqBody with
      | .error e => (.error e, [.createClient userScoped])
      | .ok _ =>
        match env.backend app.Verb with
        | .error e => (.error (wrapBackendErr app.Verb e),
                       [.createClient userScoped, .backendData app.Verb])
        | .ok payload => (.ok payload, [.createClient userScoped, .backendData app.Verb])

/-- The Status that `Center.Process` responds with for a
`ProcessApplication` outcome: Rejected on error, Approved on success. -/
def Center.processStatus (r : Except String (Option Bytes)) : applicationStatus :=
  match r with
  | .error _ => .Rejected
  | .ok _ => .Approved

/-! ### Concrete sample values used by the witnesses -/

def sampleApp : Application :=
  { ID := "", Key := "apps/v1/deployments/default/web", Verb := .Get, Nodename := "edge-node",
    Status := .PreApplying, Reason := "", ReqBody := [], RespBody := [], Subresource := "",
    Error := ⟨""⟩, Token := "Bearer tok", done := false, count := 1, timestamp := none,
    Option := [] }

def cApp9 : Application :=
  { sampleApp with
    ID := "id9", Status := .Completed, Reason := "old"
    RespBody := [1, 2], done := true, count := 0, timestamp := some 5 }

def cApp6 : Application := { sampleApp with count := 2 }

def cApp6b : Application := { sampleApp with count := 1 }

def cApp7 : Application := { sampleApp with count := 0, timestamp := some 0 }

def cApp7a : Application := { sampleApp with count := 2, timestamp := some 0 }

def cAgent7 : Agent := ⟨[("k7", cApp7), ("k7a", cApp7a)], "edge-node"⟩

def cApp5r : Application := { sampleApp with ID := "fp5r", Status := .Rejected, Error := ⟨"nope"⟩ }

def cApp5f : Application := { sampleApp with ID := "fp5f", Status := .Failed, Reason := "boom" }

def cApp5a : Application := { sampleApp with ID := "fp5a", Status := .Approved }

def cApp5i : Application := { sampleApp with ID := "fp5i", Status := .InApplying }

def cAgent5 : Agent :=
  ⟨[("fp5r", cApp5r), ("fp5f", cApp5f), ("fp5a", cApp5a), ("fp5i", cApp5i)], "edge-node"⟩

def cApp3 : Application := { sampleApp with ID := "fp3", Status := .Failed, Reason := "transport down" }

def cAgent3 : Agent := ⟨[("fp3", cApp3)], "edge-node"⟩

def cApp2 : Application := { sampleApp with Verb := .Watch }

def cOpt8 : ListOptions := ⟨"app=web", "status.phase=Running"⟩

def cEnv2 : CenterEnv :=
  { gate := true, sar := .denied "forbidden" "",
    decodeListOptions := fun _ => .ok cOpt8,
    decodeOther := fun _ _ _ => .ok (),
    backend := fun _ => .ok none,
    addListenerErr := none }

def cEnv8 : CenterEnv := { cEnv2 with gate := false }

/-- The denial message `cEnv2` produces for `cApp2`. -/
def cDenyMsg : String :=
  authzDeniedMsg ⟨"apps", "v1", "deployments"⟩ "forbidden" ""

def cCtx1 : Ctx :=
  { key := .ok "apps/v1/deployments/default/web", requestInfo := some ⟨true, ""⟩,
    token := some "Bearer tok" }

def cAgent0 : Agent := ⟨[], "edge-node"⟩

def cApp1g : Application :=
  (mkApp "apps/v1/deployments/default/web" .Get "edge-node" "" [] [] "Bearer tok").add

/-- The fingerprint of `cApp1g` (SHA-256 of
"edge-nodeapps/v1/deployments/default/webgetBearer tok"). -/
def cFp1 : String := "34d988cf0fb57729056f553fbc3bab4753f66be8fd5ed1f074e56cc2e84a2b5a"

def cAgent1 : Agent := ⟨[(cFp1, cApp1g)], "edge-node"⟩

def c10a : Application := mkApp "" .Get "ab" "" [] [] "t"

def c10b : Application := mkApp "b" .Get "a" "" [] [] "t"

/-! ### Sanity checks and helper lemmas -/

/-- Sanity check of the SHA-256 embedding against the standard test vector
for the empty message. -/
theorem sha256_empty_vector :
    hexOfBytes (sha256Sum []) =
      "e3b0c44298fc1c149afbf4c8996fb92427ae41e4649b934ca495991b7852b855" := by decide

/-- Sanity check against the standard test vector for "abc". -/
theorem sha256_abc_vector :
    hexOfBytes (sha256Sum (strBytes "abc")) =
      "ba7816bf8f01cfea414140de5dae2223b00361a396177a9cb410ff61f20015ad" := by decide

/-! ### Helper lemmas on the table and the fingerprint -/

theorem lookupTable_append_self (t : AppTable) (k : String) (v : Application)
    (h : lookupTable t k = none) : lookupTable (t ++ [(k, v)]) k = some v := by
  induction t with
  | nil => simp [lookupTable]
  | cons kv rest ih =>
    obtain ⟨k0, v0⟩ := kv
    by_cases hk : k0 = k
    · simp [lookupTable, hk] at h
    · simp [lookupTable, hk] at h ⊢
      exact ih h

theorem lookupTable_updateTable_self (t : AppTable) (k : String) (v v0 : Application)
    (h : lookupTable t k = some v0) : lookupTable (updateTable t k v) k = some v := by
  induction t with
  | nil => simp [lookupTable] at h
  | cons kv rest ih =>
    obtain ⟨k0, w⟩ := kv
    by_cases hk : k0 = k
    · subst hk
      have hu : updateTable ((k0, w) :: rest) k0 v = (k0, v) :: updateTable rest k0 v := by
        simp [updateTable]
      rw [hu]
      simp [lookupTable]
    · have hu : updateTable ((k0, w) :: rest) k v = (k0, w) :: updateTable rest k v := by
        simp [updateTable, hk]
      rw [hu]
      simp only [lookupTable] at h ⊢
      rw [if_neg hk] at h ⊢
      exact ih h

theorem updateTable_keys (t : AppTable) (k : String) (v : Application) :
    (updateTable t k v).map Prod.fst = t.map Prod.fst := by
  induction t with
  | nil => rfl
  | cons kv rest ih =>
    obtain ⟨k0, w⟩ := kv
    by_cases hk : k0 = k
    · simp [updateTable, hk] at ih ⊢
      exact ih
    · simp [updateTable, hk] at ih ⊢
      exact ih

theorem lookupTable_eq_none_iff (t : AppTable) (k : String) :
    lookupTable t k = none ↔ k ∉ t.map Prod.fst := by
  induction t with
  | nil => simp [lookupTable]
  | cons kv rest ih =>
    obtain ⟨k0, w⟩ := kv
    simp only [lookupTable, List.map_cons, List.mem_cons]
    by_cases hk : k0 = k
    · subst hk
      simp
    · rw [if_neg hk, ih]
      simp [Ne.symm hk]

theorem generate_ok_characterization (a : Agent) (ctx : Ctx) (verb : applicationVerb)
    (key sub tok : String) (opt req : Bytes) (app1 : Application) (a1 : Agent)
    (hk : ctx.key = .ok key) (hi : ctx.requestInfo = some ⟨true, sub⟩)
    (ht : ctx.token = some tok)
    (h1 : Agent.Generate a ctx verb opt req = (.ok app1, a1)) :
    a1.nodeName = a.nodeName ∧
    lookupTable a1.Applications
      ((mkApp key verb a.nodeName sub opt req tok).add.Identifier) = some app1 ∧
    ((a.Applications.map Prod.fst).Nodup → (a1.Applications.map Prod.fst).Nodup) := by
  simp only [Agent.Generate, hk, hi, ht, newApplication, Bool.not_true, Bool.false_eq_true,
    if_false, reduceIte] at h1
  cases hl : lookupTable a.Applications
      ((mkApp key verb a.nodeName sub opt req tok).add.Identifier) with
  | some stored =>
    rw [hl] at h1
    injection h1 with h1a h1b
    injection h1a with h1a
    subst h1b
    refine ⟨rfl, ?_, ?_⟩
    · rw [h1a]
      exact lookupTable_updateTable_self _ _ _ _ hl
    · intro hnd
      simpa [updateTable_keys] using hnd
  | none =>
    rw [hl] at h1
    injection h1 with h1a h1b
    injection h1a with h1a
    subst h1b
    refine ⟨rfl, ?_, ?_⟩
    · rw [h1a] at hl ⊢
      exact lookupTable_append_self _ _ _ hl
    · intro hnd
      simp only [List.map_append, List.map_cons, List.map_nil]
      rw [List.nodup_append]
      refine ⟨hnd, List.nodup_singleton _, ?_⟩
      intro x hx hx2
      simp only [List.mem_singleton] at hx2
      subst hx2
      exact (lookupTable_eq_none_iff _ _).mp hl hx

theorem identifier_of_unmemoized (a : Application) (h : a.ID = "") :
    a.Identifier = hexOfBytes (sha256Sum a.identifierBytes) := by
  simp [Application.Identifier, h]

/-! ### The claims -/

/-- C9: resetting a Completed Application clears `Reason` to the empty
string and `RespBody` to the empty byte slice and re-arms the completion
signal (`done` drops back to `false`), while leaving Status, the reference
count, the timestamp, and every identity-forming field (ID, Key, Verb,
Nodename, Subresource, Option, ReqBody, Token) unchanged. -/
theorem reset_clears_and_rearms_only (a : Application) (h : a.Status = .Completed) :
    a.Reset.Reason = "" ∧ a.Reset.RespBody = [] ∧ a.Reset.done = false ∧
    a.Reset.Status = a.Status ∧ a.Reset.count = a.count ∧ a.Reset.timestamp = a.timestamp ∧
    a.Reset.ID = a.ID ∧ a.Reset.Key = a.Key ∧ a.Reset.Verb = a.Verb ∧
    a.Reset.Nodename = a.Nodename ∧ a.Reset.Subresource = a.Subresource ∧
    a.Reset.Option = a.Option ∧ a.Reset.ReqBody = a.ReqBody ∧ a.Reset.Token = a.Token := by
  simp [Application.Reset]

/-- C9 witness: the theorem at a concrete Completed Application. -/
theorem reset_clears_and_rearms_only_witness :
    cApp9.Status = .Completed ∧
    (cApp9.Reset.Reason = "" ∧ cApp9.Reset.RespBody = [] ∧ cApp9.Reset.done = false ∧
     cApp9.Reset.Status = cApp9.Status ∧ cApp9.Reset.count = cApp9.count ∧
     cApp9.Reset.timestamp = cApp9.timestamp ∧
     cApp9.Reset.ID = cApp9.ID ∧ cApp9.Reset.Key = cApp9.Key ∧ cApp9.Reset.Verb = cApp9.Verb ∧
     cApp9.Reset.Nodename = cApp9.Nodename ∧ cApp9.Reset.Subresource = cApp9.Subresource ∧
     cApp9.Reset.Option = cApp9.Option ∧ cApp9.Reset.ReqBody = cApp9.ReqBody ∧
     cApp9.Reset.Token = cApp9.Token) :=
  ⟨rfl, reset_clears_and_rearms_only cApp9 rfl⟩

/-- C6: `add()` increments the reference count by one (within the `uint64`
range); `Close()` on a positive count stamps the timestamp and decrements
the count, flipping Status to Completed exactly when the decremented count
reaches zero and leaving Status untouched otherwise; `Close()` at count
zero is a no-op. -/
theorem add_close_refcount (a : Application) (now : Nat) :
    (a.count + 1 < 18446744073709551616 → a.add.count = a.count + 1) ∧
    (0 < a.count →
      (a.Close now).count = a.count - 1 ∧
      (a.Close now).timestamp = some now ∧
      (a.count - 1 = 0 → (a.Close now).Status = .Completed) ∧
      (a.count - 1 ≠ 0 → (a.Close now).Status = a.Status)) ∧
    (a.count = 0 → a.Close now = a) := by
  refine ⟨fun h => ?_, fun h => ?_, fun h => ?_⟩
  · simp [Application.add, Nat.mod_eq_of_lt h]
  · have hne : a.count ≠ 0 := Nat.pos_iff_ne_zero.mp h
    by_cases h0 : a.count - 1 = 0
    · simp [Application.Close, hne, h0]
    · simp [Application.Close, hne, h0]
  · simp [Application.Close, h]

/-- C6 witness: the theorem applied at concrete Applications with counts 2
and 1, all hypotheses discharged. -/
theorem add_close_refcount_witness :
    cApp6.add.count = cApp6.count + 1 ∧
    (cApp6.Close 7).count = cApp6.count - 1 ∧
    (cApp6.Close 7).timestamp = some 7 ∧
    (cApp6.Close 7).Status = cApp6.Status ∧
    (cApp6b.Close 9).Status = .Completed :=
  ⟨(add_close_refcount cApp6 7).1 (by decide),
   ((add_close_refcount cApp6 7).2.1 (by decide)).1,
   ((add_close_refcount cApp6 7).2.1 (by decide)).2.1,
   ((add_close_refcount cApp6 7).2.1 (by decide)).2.2.2 (by decide),
   ((add_close_refcount cApp6b 9).2.1 (by decide)).2.2.1 (by decide)⟩

/-- C7: `Agent.GC` retains exactly the entries that are not eligible —
an entry is deleted iff its `LastCloseTime` is non-zero (`some t`) and at
least five minutes in the past; an Application with positive reference
count has zero `LastCloseTime` and so is never deleted, regardless of
elapsed time. -/
theorem gc_deletes_exactly_idle (a : Agent) (now : Nat) (k : String) (app : Application) :
    ((k, app) ∈ (Agent.GC a now).Applications ↔
      ((k, app) ∈ a.Applications ∧
        ¬ ∃ t, app.LastCloseTime = some t ∧ fiveMinutes ≤ (now : Int) - (t : Int))) ∧
    (0 < app.count → app.LastCloseTime = none) := by
  constructor
  · simp only [Agent.GC, List.mem_filter, Bool.not_eq_true']
    constructor
    · rintro ⟨hm, hd⟩
      refine ⟨hm, ?_⟩
      rintro ⟨t, ht, hge⟩
      simp [gcShouldDelete, ht, hge] at hd
    · rintro ⟨hm, hn⟩
      refine ⟨hm, ?_⟩
      cases ht : app.LastCloseTime with
      | none => simp [gcShouldDelete, ht]
      | some t =>
        simp only [gcShouldDelete, ht, decide_eq_false_iff_not]
        exact fun hge => hn ⟨t, ht, hge⟩
  · intro h
    simp [Application.LastCloseTime, Nat.pos_iff_ne_zero.mp h]

/-- C7 witness: the theorem applied at a concrete two-entry table — the
positive-count entry has zero LastCloseTime, and the idle entry's retention
is characterized by the iff. -/
theorem gc_deletes_exactly_idle_witness :
    cApp7a.LastCloseTime = none ∧
    (("k7", cApp7) ∈ (Agent.GC cAgent7 600000000000).Applications ↔
      (("k7", cApp7) ∈ cAgent7.Applications ∧
        ¬ ∃ t, cApp7.LastCloseTime = some t ∧
          fiveMinutes ≤ ((600000000000 : Nat) : Int) - (t : Int))) :=
  ⟨(gc_deletes_exactly_idle cAgent7 600000000000 "k7a" cApp7a).2 (by decide),
   (gc_deletes_exactly_idle cAgent7 600000000000 "k7" cApp7).1⟩

/-- C4: when the send-and-await-reply step of `doApply` returns a transport
error (or times out) or the reply fails to decode into an Application, the
Application ends Failed with the error text inside `Reason`, the deferred
`Call` fires the completion signal, and the Application is not left in
InApplying. -/
theorem doapply_error_fails_and_signals (app : Application) (r : ReplyOutcome) (e : String)
    (h : r = .sendErr e ∨ r = .decodeErr e) :
    (Agent.doApply app r).Status = .Failed ∧
    (∃ p, (Agent.doApply app r).Reason = p ++ e) ∧
    (Agent.doApply app r).done = true ∧
    (Agent.doApply app r).Status ≠ .InApplying := by
  rcases h with rfl | rfl <;>
    exact ⟨rfl, ⟨_, rfl⟩, rfl, by simp [Agent.doApply, Application.Call]⟩

/-- C4 witness: the theorem at a concrete Application and a transport
error outcome. -/
theorem doapply_error_fails_and_signals_witness :
    ((ReplyOutcome.sendErr "conn refused" : ReplyOutcome) = .sendErr "conn refused" ∨
      (ReplyOutcome.sendErr "conn refused" : ReplyOutcome) = .decodeErr "conn refused") ∧
    ((Agent.doApply cApp9 (.sendErr "conn refused")).Status = .Failed ∧
     (∃ p, (Agent.doApply cApp9 (.sendErr "conn refused")).Reason = p ++ "conn refused") ∧
     (Agent.doApply cApp9 (.sendErr "conn refused")).done = true ∧
     (Agent.doApply cApp9 (.sendErr "conn refused")).Status ≠ .InApplying) :=
  ⟨Or.inl rfl,
   doapply_error_fails_and_signals cApp9 (.sendErr "conn refused") "conn refused" (Or.inl rfl)⟩

/-- C5: on a registered Application, `Apply` dispatches on the stored
Status: Rejected returns the stored structured Error, Failed returns the
stored Reason, Approved returns nil — all immediately, without triggering a
send — and InApplying neither sends nor resets but blocks on the in-flight
cycle before re-inspecting Status. -/
theorem apply_dispatch_cached_outcomes (a : Agent) (app stored : Application)
    (h : lookupTable a.Applications app.Identifier = some stored) :
    (stored.Status = .Rejected →
      Agent.Apply a app = .ok (.retError stored.Error) ∧
      (ApplyAction.retError stored.Error).sends = false ∧
      (ApplyAction.retError stored.Error).returnsImmediately = true) ∧
    (stored.Status = .Failed →
      Agent.Apply a app = .ok (.retReason stored.Reason) ∧
      (ApplyAction.retReason stored.Reason).sends = false ∧
      (ApplyAction.retReason stored.Reason).returnsImmediately = true) ∧
    (stored.Status = .Approved →
      Agent.Apply a app = .ok .retNil ∧
      ApplyAction.retNil.sends = false ∧
      ApplyAction.retNil.returnsImmediately = true) ∧
    (stored.Status = .InApplying →
      Agent.Apply a app = .ok .wait ∧
      ApplyAction.wait.sends = false ∧ ApplyAction.wait.resets = false ∧
      ApplyAction.wait.returnsImmediately = false) := by
  refine ⟨fun hs => ?_, fun hs => ?_, fun hs => ?_, fun hs => ?_⟩ <;>
    simp [Agent.Apply, h, applyDispatch, hs, ApplyAction.sends, ApplyAction.resets,
          ApplyAction.returnsImmediately]

/-- C5 witness: the theorem applied at a four-entry table holding one
Application per cached Status. -/
theorem apply_dispatch_cached_outcomes_witness :
    Agent.Apply cAgent5 cApp5r = .ok (.retError cApp5r.Error) ∧
    Agent.Apply cAgent5 cApp5f = .ok (.retReason cApp5f.Reason) ∧
    Agent.Apply cAgent5 cApp5a = .ok .retNil ∧
    Agent.Apply cAgent5 cApp5i = .ok .wait ∧
    ApplyAction.wait.sends = false ∧ ApplyAction.wait.resets = false :=
  ⟨((apply_dispatch_cached_outcomes cAgent5 cApp5r cApp5r (by decide)).1 rfl).1,
   ((apply_dispatch_cached_outcomes cAgent5 cApp5f cApp5f (by decide)).2.1 rfl).1,
   ((apply_dispatch_cached_outcomes cAgent5 cApp5a cApp5a (by decide)).2.2.1 rfl).1,
   ((apply_dispatch_cached_outcomes cAgent5 cApp5i cApp5i (by decide)).2.2.2 rfl).1,
   ((apply_dispatch_cached_outcomes cAgent5 cApp5i cApp5i (by decide)).2.2.2 rfl).2.1,
   ((apply_dispatch_cached_outcomes cAgent5 cApp5i cApp5i (by decide)).2.2.2 rfl).2.2.1⟩

/-- C3 counterexample: at a registered Application whose Status is Failed,
`Apply` does not trigger a new send cycle — it returns immediately with the
cached Reason, refuting “Apply triggers a resend from Failed”. -/
theorem apply_failed_no_resend_cex :
    Agent.Apply cAgent3 cApp3 = .ok (.retReason "transport down") ∧
    (ApplyAction.retReason "transport down").sends = false ∧
    (ApplyAction.retReason "transport down").returnsImmediately = true :=
  ⟨rfl, rfl, rfl⟩

/-- C3 (amended): for an Application whose Status is Failed, calling
`Agent.Apply` again does not resend; it returns immediately with an error
carrying the stored Reason (Failed is a cached outcome exactly like
Approved and Rejected), and a send cycle is triggered only from
PreApplying or Completed. -/
theorem apply_failed_cached_not_resent (a : Agent) (app stored : Application)
    (h : lookupTable a.Applications app.Identifier = some stored)
    (hs : stored.Status = .Failed) :
    Agent.Apply a app = .ok (.retReason stored.Reason) ∧
    (applyDispatch stored).sends = false ∧
    (∀ st : Application, (applyDispatch st).sends = true ↔
      (st.Status = .PreApplying ∨ st.Status = .Completed)) := by
  refine ⟨?_, ?_, fun st => ?_⟩
  · simp [Agent.Apply, h, applyDispatch, hs]
  · simp [applyDispatch, hs, ApplyAction.sends]
  · cases hst : st.Status <;>
      simp [applyDispatch, hst, ApplyAction.sends]

/-- C3 witness: the amended theorem applied at the concrete Failed
Application, plus the resend characterization at a PreApplying one. -/
theorem apply_failed_cached_not_resent_witness :
    Agent.Apply cAgent3 cApp3 = .ok (.retReason cApp3.Reason) ∧
    (applyDispatch cApp3).sends = false ∧
    (applyDispatch sampleApp).sends = true :=
  ⟨(apply_failed_cached_not_resent cAgent3 cApp3 cApp3 (by decide) rfl).1,
   (apply_failed_cached_not_resent cAgent3 cApp3 cApp3 (by decide) rfl).2.1,
   ((apply_failed_cached_not_resent cAgent3 cApp3 cApp3 (by decide) rfl).2.2 sampleApp).mpr
     (Or.inl rfl)⟩

/-- C2: for a watch Application, `ProcessApplication` performs the
caller-token authorization step first — before any listener registration —
and an authorization denial makes it return that error (which `Process`
surfaces as Rejected) with no listener registered and no backend data call
performed. -/
theorem watch_authorization_mandatory (env : CenterEnv) (app : Application)
    (hv : app.Verb = .Watch) :
    (Center.ProcessApplication env app).2.head? = some .authorize ∧
    ∀ e, Center.authorizeApplication env.gate env.sar app (ParseKey app.Key).1 = some e →
      (Center.ProcessApplication env app).1 = .error e ∧
      Center.processStatus (Center.ProcessApplication env app).1 = .Rejected ∧
      (∀ l, CEvent.addListener l ∉ (Center.ProcessApplication env app).2) ∧
      (∀ v, CEvent.backendData v ∉ (Center.ProcessApplication env app).2) := by
  constructor
  · simp only [Center.ProcessApplication, hv, if_true, reduceIte]
    cases hA : Center.authorizeApplication env.gate env.sar app (ParseKey app.Key).1 with
    | some e => simp
    | none =>
      cases hD : env.decodeListOptions app.Option with
      | error e => simp
      | ok opt => cases hL : env.addListenerErr <;> simp
  · intro e hA
    simp [Center.ProcessApplication, hv, hA, Center.processStatus]

/-- C2 witness: the theorem applied at a concrete watch Application under
an enabled authorization gate whose review denies the request. -/
theorem watch_authorization_mandatory_witness :
    (Center.ProcessApplication cEnv2 cApp2).2.head? = some .authorize ∧
    (Center.ProcessApplication cEnv2 cApp2).1 = .error cDenyMsg ∧
    Center.processStatus (Center.ProcessApplication cEnv2 cApp2).1 = .Rejected ∧
    (∀ l, CEvent.addListener l ∉ (Center.ProcessApplication cEnv2 cApp2).2) ∧
    (∀ v, CEvent.backendData v ∉ (Center.ProcessApplication cEnv2 cApp2).2) :=
  ⟨(watch_authorization_mandatory cEnv2 cApp2 rfl).1,
   ((watch_authorization_mandatory cEnv2 cApp2 rfl).2 cDenyMsg (by decide)).1,
   ((watch_authorization_mandatory cEnv2 cApp2 rfl).2 cDenyMsg (by decide)).2.1,
   ((watch_authorization_mandatory cEnv2 cApp2 rfl).2 cDenyMsg (by decide)).2.2.1,
   ((watch_authorization_mandatory cEnv2 cApp2 rfl).2 cDenyMsg (by decide)).2.2.2⟩

/-- C8: for a watch Application whose Option decodes as list options,
`ProcessApplication` makes no backend CRUD call and exactly one listener
registration, whose selector carries the requested label and field
selectors — the field selector additionally constrained by the
`metadata.namespace` term exactly when the Key carries a non-empty
namespace. -/
theorem watch_registers_requested_listener (env : CenterEnv) (app : Application)
    (opt : ListOptions) (hv : app.Verb = .Watch)
    (hd : env.decodeListOptions app.Option = .ok opt)
    (ha : Center.authorizeApplication env.gate env.sar app (ParseKey app.Key).1 = none) :
    (Center.ProcessApplication env app).2.filter CEvent.isAddListener =
      [.addListener (app.ToListener opt)] ∧
    (∀ v, CEvent.backendData v ∉ (Center.ProcessApplication env app).2) ∧
    (app.ToListener opt).nodename = app.Nodename ∧
    (app.ToListener opt).gvr = (ParseKey app.Key).1 ∧
    (app.ToListener opt).selector.label = opt.labelSelector ∧
    ((ParseKey app.Key).2.1 = "" →
      (app.ToListener opt).selector.field = .fromStr opt.fieldSelector) ∧
    ((ParseKey app.Key).2.1 ≠ "" →
      (app.ToListener opt).selector.field =
        .andSel (.fromStr opt.fieldSelector)
          (.oneTerm "metadata.namespace" (ParseKey app.Key).2.1)) := by
  refine ⟨?_, ?_, ?_, ?_, ?_, fun hns => ?_, fun hns => ?_⟩
  · simp only [Center.ProcessApplication, hv, reduceIte, ha, hd]
    cases hL : env.addListenerErr <;> simp [CEvent.isAddListener]
  · simp only [Center.ProcessApplication, hv, reduceIte, ha, hd]
    cases hL : env.addListenerErr <;> simp
  · simp [Application.ToListener]
  · simp [Application.ToListener]
  · by_cases hns : (ParseKey app.Key).2.1 = "" <;>
      simp [Application.ToListener, NewSelector, hns]
  · simp [Application.ToListener, NewSelector, hns]
  · simp [Application.ToListener, NewSelector, hns]

/-- C8 witness: the theorem applied at a concrete watch Application whose
key carries the `default` namespace. -/
theorem watch_registers_requested_listener_witness :
    (Center.ProcessApplication cEnv8 cApp2).2.filter CEvent.isAddListener =
      [.addListener (cApp2.ToListener cOpt8)] ∧
    (∀ v, CEvent.backendData v ∉ (Center.ProcessApplication cEnv8 cApp2).2) ∧
    (cApp2.ToListener cOpt8).selector.label = cOpt8.labelSelector ∧
    (cApp2.ToListener cOpt8).selector.field =
      .andSel (.fromStr cOpt8.fieldSelector) (.oneTerm "metadata.namespace" "default") :=
  ⟨(watch_registers_requested_listener cEnv8 cApp2 cOpt8 rfl rfl rfl).1,
   (watch_registers_requested_listener cEnv8 cApp2 cOpt8 rfl rfl rfl).2.1,
   (watch_registers_requested_listener cEnv8 cApp2 cOpt8 rfl rfl rfl).2.2.2.2.1,
   (watch_registers_requested_listener cEnv8 cApp2 cOpt8 rfl rfl rfl).2.2.2.2.2.2 (by decide)⟩

/-- C1: two `Generate` calls whose derived fingerprint-forming fields
(node name, key, verb, serialized option, request body, subresource, token)
coincide collapse to one live Application: after the first call succeeds,
the fingerprint maps to the returned instance, and the second call returns
that stored instance with its reference count incremented by one, creating
no second table entry; a table with at most one entry per fingerprint stays
that way. -/
theorem generate_deduplicates (a : Agent) (ctx1 ctx2 : Ctx) (verb : applicationVerb)
    (key sub tok : String) (opt req : Bytes) (app1 : Application) (a1 : Agent)
    (hk1 : ctx1.key = .ok key) (hi1 : ctx1.requestInfo = some ⟨true, sub⟩)
    (ht1 : ctx1.token = some tok)
    (hk2 : ctx2.key = .ok key) (hi2 : ctx2.requestInfo = some ⟨true, sub⟩)
    (ht2 : ctx2.token = some tok)
    (h1 : Agent.Generate a ctx1 verb opt req = (.ok app1, a1)) :
    lookupTable a1.Applications
      ((mkApp key verb a.nodeName sub opt req tok).add.Identifier) = some app1 ∧
    Agent.Generate a1 ctx2 verb opt req =
      (.ok app1.add,
       Agent.mk
         (updateTable a1.Applications
           ((mkApp key verb a.nodeName sub opt req tok).add.Identifier) app1.add)
         a1.nodeName) ∧
    app1.add.count = (app1.count + 1) % 18446744073709551616 ∧
    (Agent.Generate a1 ctx2 verb opt req).2.Applications.map Prod.fst =
      a1.Applications.map Prod.fst ∧
    ((a.Applications.map Prod.fst).Nodup →
      (a1.Applications.map Prod.fst).Nodup ∧
      ((Agent.Generate a1 ctx2 verb opt req).2.Applications.map Prod.fst).Nodup) := by
  obtain ⟨hn, hL, hnd⟩ :=
    generate_ok_characterization a ctx1 verb key sub tok opt req app1 a1 hk1 hi1 ht1 h1
  have hG : Agent.Generate a1 ctx2 verb opt req =
      (.ok app1.add,
       Agent.mk
         (updateTable a1.Applications
           ((mkApp key verb a.nodeName sub opt req tok).add.Identifier) app1.add)
         a1.nodeName) := by
    simp only [Agent.Generate, hk2, hi2, ht2, newApplication, Bool.not_true,
      Bool.false_eq_true, if_false, reduceIte, hn, hL]
  refine ⟨hL, hG, rfl, ?_, fun hnd0 => ⟨hnd hnd0, ?_⟩⟩
  · rw [hG]
    exact updateTable_keys _ _ _
  · rw [hG]
    simpa [updateTable_keys] using hnd hnd0

/-- C1 witness: the theorem applied to two concrete identical requests
against an initially empty agent. -/
theorem generate_deduplicates_witness :
    lookupTable cAgent1.Applications
      ((mkApp "apps/v1/deployments/default/web" .Get "edge-node" "" [] [] "Bearer tok").add.Identifier) =
      some cApp1g ∧
    Agent.Generate cAgent1 cCtx1 .Get [] [] =
      (.ok cApp1g.add,
       Agent.mk
         (updateTable cAgent1.Applications
           ((mkApp "apps/v1/deployments/default/web" .Get "edge-node" "" [] []
              "Bearer tok").add.Identifier) cApp1g.add)
         cAgent1.nodeName) ∧
    cApp1g.add.count = (cApp1g.count + 1) % 18446744073709551616 ∧
    (Agent.Generate cAgent1 cCtx1 .Get [] []).2.Applications.map Prod.fst =
      cAgent1.Applications.map Prod.fst ∧
    ((cAgent1.Applications.map Prod.fst).Nodup ∧
     ((Agent.Generate cAgent1 cCtx1 .Get [] []).2.Applications.map Prod.fst).Nodup) :=
  have h := generate_deduplicates cAgent0 cCtx1 cCtx1 .Get
    "apps/v1/deployments/default/web" "" "Bearer tok" [] [] cApp1g cAgent1
    rfl rfl rfl rfl rfl rfl (by rfl)
  ⟨h.1, h.2.1, h.2.2.1, h.2.2.2.1, h.2.2.2.2 (by simp [cAgent0])⟩

/-- C10: `Identifier` hashes the bare separator-free concatenation of
Nodename, Key, Verb, Option, ReqBody, Subresource and Token, so two
Applications with distinct field tuples — Nodename "ab" with empty Key
versus Nodename "a" with Key "b", all other fields equal — have equal
identifier byte strings and hence equal Identifiers: deduplication keyed on
`Identifier` can collapse logically distinct requests. -/
theorem identifier_concatenation_collision :
    ∃ a1 a2 : Application,
      (a1.Nodename, a1.Key) ≠ (a2.Nodename, a2.Key) ∧
      a1.Verb = a2.Verb ∧ a1.Option = a2.Option ∧ a1.ReqBody = a2.ReqBody ∧
      a1.Subresource = a2.Subresource ∧ a1.Token = a2.Token ∧
      a1.ID = "" ∧ a2.ID = "" ∧
      a1.identifierBytes = a2.identifierBytes ∧
      a1.Identifier = a2.Identifier := by
  refine ⟨c10a, c10b, by decide, rfl, rfl, rfl, rfl, rfl, rfl, rfl, by decide, ?_⟩
  rw [identifier_of_unmemoized c10a rfl, identifier_of_unmemoized c10b rfl]
  exact congrArg (fun b => hexOfBytes (sha256Sum b)) (by decide)
